import Mathlib

/-!
Shallow embedding of `src/parsers/geometry/BaseParser.js` from the
cityjson-threejs-loader repository, with theorems settling the specification's
claims about `getTextureData`, `getSurfaceMaterials`, `getObjectIdx` and
`getSurfaceTypeIdx`.

JavaScript numbers are modelled as either `NaN` or a finite value (exact
rational model): the claims under study only exercise finite values and `NaN`,
so IEEE infinities and rounding never arise on claim inputs. Dynamic
JavaScript values occurring in appearance data are modelled by `JVal`.
Operations that can throw a TypeError in JavaScript (computed member access on
a possibly `null`/`undefined` base) run in `Except String`; every other
JavaScript array access is total and yields `undefined` out of range, exactly
as in the source language. `console.warn` calls are modelled as a list of
warning tags accumulated alongside the result (the tags abbreviate the
source's template-literal messages; which paths warn is translated exactly,
including the deliberately commented-out warn on the missing-UV-entry path).

The success continuation of `getTextureData` (the code that builds the
`{ index, uvs }` record after all validation passes, including the atlas
remapping) is missing from the `src` snapshot: the shipped `BaseParser.js`
has that chunk deleted (between lines 175 and 177 the braces no longer
balance), while the repository's tests (`tests/BaseParser.atlas.test.js`)
exercise it. Definitions for that part are marked `Modelled from the spec:`
and follow the spec's Atlas Remap Table rule and §4.2 output contract; every
fallback path of `getTextureData` is translated from the shipped source,
which is authoritative for them.
-/

namespace CityJsonLoader

/-- A JavaScript number: `NaN` or a finite value, modelled as an exact rational. -/
inductive JNum where
  | nan : JNum
  | fin : ℚ → JNum
deriving DecidableEq

/-- A dynamic JavaScript value as it can appear in CityJSON appearance data. -/
inductive JVal where
  | null : JVal
  | undefined : JVal
  | bool : Bool → JVal
  | num : JNum → JVal
  | str : String → JVal
  | arr : List JVal → JVal

/-- JavaScript truthiness for the modelled values. -/
def JVal.truthy : JVal → Bool
  | .null => false
  | .undefined => false
  | .bool b => b
  | .num .nan => false
  | .num (.fin q) => q != 0
  | .str s => s != ""
  | .arr _ => true

/-- `Array.isArray` on a modelled value. -/
def JVal.isArr : JVal → Bool
  | .arr _ => true
  | _ => false

/-- The strict comparison `=== null` of line 139. -/
def JVal.isNull : JVal → Bool
  | .null => true
  | _ => false

/-- The strict comparison `=== undefined` of line 151. -/
def JVal.isUndef : JVal → Bool
  | .undefined => true
  | _ => false

/-- Interpret a finite JS number as an array index: defined exactly when the
number is a non-negative integer. -/
def qToIdx (q : ℚ) : Option ℕ :=
  if q.den = 1 ∧ 0 ≤ q.num then some q.num.toNat else none

/-- Computed member access `base[i]` with an integer key, as JavaScript
evaluates it: property access on a `null`/`undefined` base throws a TypeError,
an array yields its element or `undefined`, a string yields a one-character
string or `undefined`, and the remaining primitives have no indexed
properties. -/
def jsAccess : JVal → ℤ → Except String JVal
  | .null, _ => .error "TypeError: cannot read properties of null"
  | .undefined, _ => .error "TypeError: cannot read properties of undefined"
  | .arr xs, i => .ok (if 0 ≤ i then xs.getD i.toNat .undefined else .undefined)
  | .str s, i =>
    .ok (if h : 0 ≤ i ∧ i.toNat < s.toList.length then
          .str (String.mk [s.toList.get ⟨i.toNat, h.2⟩]) else .undefined)
  | _, _ => .ok .undefined

/-- Array access `xs[k]` where the key is itself a JavaScript value, as used by
the UV-table lookup `textureVertices[uvIndex]` on line 158: an integral,
non-negative numeric key yields the element (or `undefined` out of range) and
every other key yields `undefined`. No claim input indexes the UV table with a
fractional, negative or string key. -/
def jsIndexBy (xs : List JVal) : JVal → JVal
  | .num (.fin q) =>
    match qToIdx q with
    | some i => xs.getD i .undefined
    | none => .undefined
  | _ => .undefined

/-- The record `getTextureData` produces per theme: a texture index and a UV pair. -/
structure TexRecord where
  index : JVal
  uvs : JVal

/-- The UV pair `[0, 0]` used by every fallback record. -/
def zeroUv : JVal := .arr [.num (.fin 0), .num (.fin 0)]

/-- The untextured default record `{ index: -1, uvs: [0, 0] }`. -/
def defaultRec : TexRecord := ⟨.num (.fin (-1)), zeroUv⟩

/-- Modelled from the spec: one entry of the appearance `textures` table as far
as UV resolution is concerned — the entry may declare `atlasTexture` (the
index of a parent texture) together with `atlasRegion` as `[x, y, w, h]`;
texture-loading metadata (image, wrapMode, ...) plays no role here. The
concrete use of the textures table inside `getTextureData` belongs to the
success chunk deleted from `src`, so its shape follows the spec's Atlas Remap
Table rule. -/
structure TextureEntry where
  atlas : Option (ℕ × ℚ × ℚ × ℚ × ℚ)
deriving DecidableEq

/-- The appearance block of the document: the raw `vertices-texture` field (an
arbitrary JavaScript value, or absent) and the `textures` table. -/
structure Appearance where
  verticesTexture : Option JVal
  textures : Option (List TextureEntry)

/-- The part of the CityJSON document `getTextureData` reads through `this.json`. -/
structure CityJson where
  appearance : Option Appearance

/-- One entry of the texture theme table: the object stored under a theme
name. Only its `values` field is read; `none` models an absent or `undefined`
field. -/
structure ThemeEntry where
  values : Option JVal

/-- Line 103: `(this.json.appearance && this.json.appearance['vertices-texture'])
? this.json.appearance['vertices-texture'] : []`. -/
def textureVerticesOf (json : CityJson) : JVal :=
  match json.appearance with
  | some app =>
    match app.verticesTexture with
    | some v => if v.truthy then v else .arr []
    | none => .arr []
  | none => .arr []

/-- The textures table read by the spec-modelled atlas remap; `[]` when the
appearance block or the table is absent. -/
def texturesOf (json : CityJson) : List TextureEntry :=
  match json.appearance with
  | some app => app.textures.getD []
  | none => []

/-- Lines 117-119: `activeHoles = holes.filter(v => v <= vertexIndex)` and the
ring id is `activeHoles.length`. -/
def ringIdOf (holes : List ℤ) (vertexIndex : ℤ) : ℕ :=
  (holes.filter (fun v => v ≤ vertexIndex)).length

/-- Line 120: the within-ring vertex id, `vertexIndex` itself for ring 0 and
otherwise `vertexIndex - activeHoles[activeHoles.length - 1]`. -/
def vIdOf (holes : List ℤ) (vertexIndex : ℤ) : ℤ :=
  let activeHoles := holes.filter (fun v => v ≤ vertexIndex)
  if activeHoles.length = 0 then vertexIndex
  else vertexIndex - activeHoles.getLastD 0

/-- One UV coordinate fails line 161's element check when it is not a number
or is NaN (`typeof c !== 'number' || isNaN(c)`). -/
def badCoord : JVal → Bool
  | .num (.fin _) => false
  | _ => true

/-- Line 161: `uvs.some(c => typeof c !== 'number' || isNaN(c))`. -/
def hasBadCoord : JVal → Bool
  | .arr xs => xs.any badCoord
  | _ => false

/-- Modelled from the spec: the atlas remapping applied by the success
continuation of `getTextureData`, which is missing from the `src` snapshot.
Per the Atlas Remap Table rule, when the resolved texture index denotes a
texture entry declaring `atlasTexture` and `atlasRegion` `[x, y, w, h]`, the
UV pair `(u, v)` is rewritten to `(u*w + x, v*h + y)` and the index to the
parent's; a missing or dangling `atlasTexture` reference falls back to the
original (unremapped) index and UV. -/
def applyAtlasRemap (textures : List TextureEntry) (r : TexRecord) : TexRecord :=
  match r.index, r.uvs with
  | .num (.fin t), .arr [.num (.fin u), .num (.fin v)] =>
    match qToIdx t with
    | some ti =>
      match textures.get? ti with
      | some e =>
        match e.atlas with
        | some (parent, x, y, w, h) =>
          if parent < textures.length then
            ⟨.num (.fin parent), .arr [.num (.fin (u * w + x)), .num (.fin (v * h + y))]⟩
          else r
        | none => r
      | none => r
    | none => r
  | _, _ => r

/-- The per-theme body of `getTextureData` (the arrow function mapped over
`Object.entries(texture)`, lines 111-195). Every fallback path is translated
from the shipped source; the final success return carries the spec-modelled
atlas remap. The second component collects the `console.warn` calls the path
performs. -/
def getTextureDataTheme (json : CityJson) (surfaceIndex : ℕ) (vertexIndex : ℤ)
    (holes : List ℤ) (textureVertices : List JVal) (theme : String)
    (obj : ThemeEntry) : Except String ((String × TexRecord) × List String) :=
  match obj.values with
  | some (JVal.arr vals) =>
    if 0 < textureVertices.length then
      let ringId := ringIdOf holes vertexIndex
      let vId := vIdOf holes vertexIndex
      if surfaceIndex ≥ vals.length || !(vals.getD surfaceIndex .undefined).truthy then
        .ok ((theme, defaultRec), ["Missing texture values for surface"])
      else
        match vals.getD surfaceIndex .undefined with
        | .arr ds =>
          match ds.getD 0 .undefined with
          | .arr ring0 =>
            let d00 := ring0.getD 0 .undefined
            if d00.isNull then
              .ok ((theme, defaultRec), [])
            else
              let ringv := ds.getD ringId .undefined
              if !ringv.truthy then
                .ok ((theme, ⟨d00, zeroUv⟩), ["Missing texture ring data"])
              else
                match jsAccess ringv (vId + 1) with
                | .error e => .error e
                | .ok uvIndex =>
                  if uvIndex.isUndef then
                    .ok ((theme, ⟨d00, zeroUv⟩), ["Missing UV index"])
                  else
                    let uvs := jsIndexBy textureVertices uvIndex
                    if !uvs.truthy || !uvs.isArr || hasBadCoord uvs then
                      .ok ((theme, ⟨d00, zeroUv⟩),
                        if uvs.truthy then ["Invalid UV coordinates"] else [])
                    else
                      .ok ((theme, applyAtlasRemap (texturesOf json) ⟨d00, uvs⟩), [])
          | _ => .ok ((theme, defaultRec), ["Invalid texture data structure"])
        | _ => .ok ((theme, defaultRec), ["Invalid texture data structure"])
    else
      .ok ((theme, defaultRec), ["Texture values is not an array"])
  | some v =>
    .ok ((theme, defaultRec), if v.truthy then ["Texture values is not an array"] else [])
  | none => .ok ((theme, defaultRec), [])

/-- `Array.prototype.map` with a callback that can throw, propagating the
first exception, as used on line 111. -/
def mapThemes (f : String × ThemeEntry → Except String ((String × TexRecord) × List String)) :
    List (String × ThemeEntry) → Except String (List ((String × TexRecord) × List String))
  | [] => .ok []
  | p :: rest =>
    match f p with
    | .error e => .error e
    | .ok r =>
      match mapThemes f rest with
      | .error e => .error e
      | .ok rs => .ok (r :: rs)

/-- `BaseParser.getTextureData` (lines 99-203). The result is `none` when the
function returns `undefined` (no texture table argument, or a non-array
`vertices-texture` field), and otherwise the per-theme records in theme order
(`Object.fromEntries` is modelled by the association list) together with the
warnings emitted. -/
def getTextureData (json : CityJson) (surfaceIndex : ℕ) (vertexIndex : ℤ)
    (holes : List ℤ) (texture : Option (List (String × ThemeEntry))) :
    Except String (Option (List (String × TexRecord) × List String)) :=
  match texture with
  | none => .ok none
  | some themes =>
    match textureVerticesOf json with
    | .arr tvs =>
      match mapThemes
          (fun p => getTextureDataTheme json surfaceIndex vertexIndex holes tvs p.1 p.2)
          themes with
      | .error e => .error e
      | .ok prs => .ok (some (prs.map (fun pr => pr.1), (prs.map (fun pr => pr.2)).flatten))
    | _ => .ok none

/-- One entry of the material theme table: an optional per-surface `values`
array and an optional scalar `value` (`none` models absent or `undefined`;
an explicit JSON `null` value is `some .null`, which is `!== undefined`). -/
structure MatEntry where
  values : Option (List JVal)
  value : Option JVal

/-- `BaseParser.getSurfaceMaterials` (lines 67-97): `{}` for a falsy material
table, otherwise one entry per theme, `values[idx]` when the theme carries a
per-surface array, else the scalar `value` when it is not `undefined`, else
`-1`. -/
def getSurfaceMaterials (idx : ℕ) (material : Option (List (String × MatEntry))) :
    List (String × JVal) :=
  match material with
  | none => []
  | some entries =>
    entries.map fun p =>
      match p.2.values with
      | some vs => (p.1, vs.getD idx .undefined)
      | none =>
        match p.2.value with
        | some v => (p.1, v)
        | none => (p.1, .num (.fin (-1)))

/-- `Array.prototype.indexOf` on the object-id list: index of the first equal
element, `-1` when absent. -/
def jsIndexOf (x : String) : List String → ℤ
  | [] => -1
  | y :: ys =>
    if y = x then 0
    else
      let r := jsIndexOf x ys
      if r < 0 then -1 else r + 1

/-- `BaseParser.getObjectIdx` (lines 20-24): `return this.objectIds.indexOf(objectId)`.
The state component returned is the (unchanged) `objectIds` list owned by the
instance, making explicit that the method performs no write. -/
def getObjectIdxS (objectIds : List String) (objectId : String) : ℤ × List String :=
  (jsIndexOf objectId objectIds, objectIds)

/-- A semantic surface object inside a geometry's `semantics.surfaces` array;
only its `type` field is read by `getSurfaceTypeIdx`. -/
structure SemSurface where
  type : String
deriving DecidableEq

/-- A surface-type color registry: `Object.keys` order is insertion order, so
the object is modelled as an insertion-ordered association list from type name
to color. -/
abbrev ColorMap := List (String × ℕ)

/-- Line 46: `surfaces[semantics[idx]]`, `undefined` (here `none`) unless the
semantic value is an integral in-range index. A `null` semantics entry (the
CityJSON "no semantics" marker) therefore resolves to `none`. -/
def semanticSurfaceAt (surfaces : List SemSurface) : JVal → Option SemSurface
  | .num (.fin q) =>
    match qToIdx q with
    | some i => surfaces.get? i
    | none => none
  | _ => none

/-- `BaseParser.getSurfaceTypeIdx` (lines 41-65). `freshColor` stands for the
`Math.floor(Math.random() * 0xffffff)` draw (randomness supplied by the
environment). Returns the surface-type index and the possibly-extended color
registry the instance's `this.surfaceColors` points to. -/
def getSurfaceTypeIdx (surfaceColors : ColorMap) (idx : ℕ) (semantics : List JVal)
    (surfaces : List SemSurface) (freshColor : ℕ) : ℤ × ColorMap :=
  if 0 < semantics.length then
    match semanticSurfaceAt surfaces (semantics.getD idx .undefined) with
    | some surface =>
      let keys := surfaceColors.map Prod.fst
      if surface.type ∈ keys then
        ((keys.indexOf surface.type : ℕ), surfaceColors)
      else
        ((keys.length : ℕ), surfaceColors ++ [(surface.type, freshColor)])
    | none => (-1, surfaceColors)
  else (-1, surfaceColors)

/-- Modelled from the spec: the module-level `defaultSemanticsColors` object of
`src/defaults/colors.js`, which is absent from the `src` snapshot (only the
line importing it in BaseParser.js remains). Per the spec's semantic-surface-type bucket
it pre-seeds standard surface classes (wall, roof, ground); the concrete
colors are irrelevant to the claims. -/
def defaultSemanticsColors : ColorMap :=
  [("GroundSurface", 0x999999), ("WallSurface", 0xffffff), ("RoofSurface", 0xff0000)]

/-- Two BaseParser instances created for separate parse sessions. The
constructor (line 11) runs `this.surfaceColors = defaultSemanticsColors` for
each instance, copying the reference to the single module-level object (ES
modules are instantiated once), so the surface-type registry state of both
sessions is one shared `ColorMap`. -/
structure TwoSessions where
  sharedSurfaceColors : ColorMap
deriving DecidableEq

/-- `getSurfaceTypeIdx` invoked through the first instance: it reads and
writes the shared module-level color object. -/
def internViaFirst (w : TwoSessions) (idx : ℕ) (semantics : List JVal)
    (surfaces : List SemSurface) (freshColor : ℕ) : ℤ × TwoSessions :=
  let r := getSurfaceTypeIdx w.sharedSurfaceColors idx semantics surfaces freshColor
  (r.1, ⟨r.2⟩)

/-- The color registry the second instance observes through its own
`this.surfaceColors` field: the same shared object. -/
def observedViaSecond (w : TwoSessions) : ColorMap := w.sharedSurfaceColors

/-- The set (insertion-ordered list) of surface type names the second instance
observes. -/
def surfaceTypesViaSecond (w : TwoSessions) : List String :=
  (observedViaSecond w).map Prod.fst

/-- No applicable atlas remap at texture index `n`: the textures table has no
entry there, or the entry declares no `atlasTexture`, or the declared parent
index dangles. -/
def noRemapAt (ts : List TextureEntry) (n : ℕ) : Prop :=
  ∀ e, ts.get? n = some e → ∀ a, e.atlas = some a → ¬ a.1 < ts.length

/-- A document whose textures table contains a plain texture 0 and an atlas
sub-texture 1 over region `[0, 0, 0.5, 0.5]`, with UV table `[[1, 1]]`
(the spec's §8 round-trip vector). -/
def atlasDoc : CityJson :=
  ⟨some ⟨some (.arr [.arr [.num (.fin 1), .num (.fin 1)]]),
    some [⟨none⟩, ⟨some (0, 0, 0, 1/2, 1/2)⟩]⟩⟩

/-- A theme table whose single surface references sub-texture 1 and UV-table
entry 0. -/
def atlasThemes : List (String × ThemeEntry) :=
  [("theme1", ⟨some (.arr [.arr [.arr [.num (.fin 1), .num (.fin 0)]]])⟩)]

/-- A document with no textures table and the UV table `[[3/4, 1/4]]`. -/
def plainDoc : CityJson :=
  ⟨some ⟨some (.arr [.arr [.num (.fin (3/4)), .num (.fin (1/4))]]), none⟩⟩

/-- A theme table whose single surface references texture 0 and UV-table
entry 0. -/
def plainThemes : List (String × ThemeEntry) :=
  [("theme1", ⟨some (.arr [.arr [.arr [.num (.fin 0), .num (.fin 0)]]])⟩)]

/-- A document with the one-entry UV table `[[0, 0]]`. -/
def smallDoc : CityJson :=
  ⟨some ⟨some (.arr [.arr [.num (.fin 0), .num (.fin 0)]]), none⟩⟩

/-- A theme table whose single surface references texture 0 and the
out-of-range UV-table entry 99. -/
def smallThemes : List (String × ThemeEntry) :=
  [("t", ⟨some (.arr [.arr [.arr [.num (.fin 0), .num (.fin 99)]]])⟩)]

/-- The failing input of the missing-UV-table case: an appearance block with a
textures table but no `vertices-texture` field at all, as in the repository's
own test. -/
def noVtDoc : CityJson := ⟨some ⟨none, some []⟩⟩

/-- A well-formed theme table for `noVtDoc`. -/
def noVtThemes : List (String × ThemeEntry) :=
  [("default", ⟨some (.arr [.arr [.arr [.num (.fin 0), .num (.fin 0), .num (.fin 1),
    .num (.fin 2)]]])⟩)]

/-!
Helper lemmas. The per-theme resolver never produces an error: the only
fallible operation, the computed access `data[ringId][vId + 1]`, is guarded by
the truthiness check on `data[ringId]`.
-/

theorem jsAccess_ok_of_truthy {v : JVal} (h : v.truthy = true) (i : ℤ) :
    ∃ r, jsAccess v i = .ok r := by
  cases v with
  | null => simp [JVal.truthy] at h
  | undefined => simp [JVal.truthy] at h
  | bool b => exact ⟨_, rfl⟩
  | num n => cases n <;> exact ⟨_, rfl⟩
  | str s => exact ⟨_, rfl⟩
  | arr xs => exact ⟨_, rfl⟩

theorem getTextureDataTheme_ok (json : CityJson) (surfaceIndex : ℕ) (vertexIndex : ℤ)
    (holes : List ℤ) (textureVertices : List JVal) (theme : String) (obj : ThemeEntry) :
    ∃ r, getTextureDataTheme json surfaceIndex vertexIndex holes textureVertices theme obj =
      .ok r := by
  unfold getTextureDataTheme
  cases hv : obj.values with
  | none => exact ⟨_, rfl⟩
  | some v =>
    cases v with
    | arr vals =>
      dsimp only
      split
      · split
        · exact ⟨_, rfl⟩
        · cases hd : vals.getD surfaceIndex .undefined with
          | arr ds =>
            dsimp only
            cases hd0 : ds.getD 0 .undefined with
            | arr ring0 =>
              dsimp only
              split
              · exact ⟨_, rfl⟩
              · split
                · exact ⟨_, rfl⟩
                · rename_i hring
                  obtain ⟨r, hr⟩ := jsAccess_ok_of_truthy
                    (v := ds.getD (ringIdOf holes vertexIndex) .undefined)
                    (by simpa using hring) (vIdOf holes vertexIndex + 1)
                  rw [hr]
                  dsimp only
                  split
                  · exact ⟨_, rfl⟩
                  · split
                    · exact ⟨_, rfl⟩
                    · exact ⟨_, rfl⟩
            | null => exact ⟨_, rfl⟩
            | undefined => exact ⟨_, rfl⟩
            | bool b => exact ⟨_, rfl⟩
            | num n => exact ⟨_, rfl⟩
            | str st => exact ⟨_, rfl⟩
          | null => exact ⟨_, rfl⟩
          | undefined => exact ⟨_, rfl⟩
          | bool b => exact ⟨_, rfl⟩
          | num n => exact ⟨_, rfl⟩
          | str st => exact ⟨_, rfl⟩
      · exact ⟨_, rfl⟩
    | null => exact ⟨_, rfl⟩
    | undefined => exact ⟨_, rfl⟩
    | bool b => exact ⟨_, rfl⟩
    | num n => exact ⟨_, rfl⟩
    | str st => exact ⟨_, rfl⟩

theorem mapThemes_ok (f : String × ThemeEntry → Except String ((String × TexRecord) × List String))
    (l : List (String × ThemeEntry)) (h : ∀ p ∈ l, ∃ r, f p = .ok r) :
    ∃ rs, mapThemes f l = .ok rs := by
  induction l with
  | nil => exact ⟨[], rfl⟩
  | cons p rest ih =>
    obtain ⟨r, hr⟩ := h p (List.mem_cons_self p rest)
    obtain ⟨rs, hrs⟩ := ih (fun q hq => h q (List.mem_cons_of_mem p hq))
    exact ⟨r :: rs, by simp [mapThemes, hr, hrs]⟩

theorem mapThemes_mem (f : String × ThemeEntry → Except String ((String × TexRecord) × List String))
    {l : List (String × ThemeEntry)} {rs : List ((String × TexRecord) × List String)}
    (hmap : mapThemes f l = .ok rs) {p : String × ThemeEntry} (hp : p ∈ l)
    {r : (String × TexRecord) × List String} (hr : f p = .ok r) : r ∈ rs := by
  induction l generalizing rs with
  | nil => cases hp
  | cons q rest ih =>
    rw [mapThemes] at hmap
    cases hq : f q with
    | error e => rw [hq] at hmap; cases hmap
    | ok r0 =>
      rw [hq] at hmap
      cases hrest : mapThemes f rest with
      | error e => rw [hrest] at hmap; cases hmap
      | ok rs0 =>
        rw [hrest] at hmap
        cases hmap
        rcases List.mem_cons.mp hp with hpq | hpr
        · subst hpq
          rw [hq] at hr
          cases hr
          exact List.mem_cons_self _ _
        · exact List.mem_cons_of_mem _ (ih hrest hpr)

/-- Lifting a per-theme evaluation to the whole call: when the resolved
`vertices-texture` value is an array and the per-theme body produces a record
for a theme of the table, `getTextureData` returns a record list containing
it. -/
theorem getTextureData_mem {json : CityJson} {surfaceIndex : ℕ} {vertexIndex : ℤ}
    {holes : List ℤ} {themes : List (String × ThemeEntry)} {tvs : List JVal}
    (htv : textureVerticesOf json = .arr tvs) {th : String} {e : ThemeEntry}
    (hmem : (th, e) ∈ themes) {rec : TexRecord} {w : List String}
    (heval : getTextureDataTheme json surfaceIndex vertexIndex holes tvs th e =
      .ok ((th, rec), w)) :
    ∃ recs warns, getTextureData json surfaceIndex vertexIndex holes (some themes) =
      .ok (some (recs, warns)) ∧ (th, rec) ∈ recs := by
  obtain ⟨rs, hrs⟩ := mapThemes_ok
    (fun p => getTextureDataTheme json surfaceIndex vertexIndex holes tvs p.1 p.2) themes
    (fun p _ => getTextureDataTheme_ok json surfaceIndex vertexIndex holes tvs p.1 p.2)
  refine ⟨rs.map (fun pr => pr.1), (rs.map (fun pr => pr.2)).flatten, ?_, ?_⟩
  · unfold getTextureData
    dsimp only
    rw [htv]
    dsimp only
    rw [hrs]
  · have : ((th, rec), w) ∈ rs := mapThemes_mem _ hrs hmem heval
    exact List.mem_map.mpr ⟨((th, rec), w), this, rfl⟩

/-- `getTextureData` never raises: every call returns a value (possibly
`undefined`). -/
theorem getTextureData_ok (json : CityJson) (surfaceIndex : ℕ) (vertexIndex : ℤ)
    (holes : List ℤ) (texture : Option (List (String × ThemeEntry))) :
    ∃ v, getTextureData json surfaceIndex vertexIndex holes texture = .ok v := by
  unfold getTextureData
  cases texture with
  | none => exact ⟨_, rfl⟩
  | some themes =>
    dsimp only
    cases htv : textureVerticesOf json with
    | arr tvs =>
      obtain ⟨rs, hrs⟩ := mapThemes_ok
        (fun p => getTextureDataTheme json surfaceIndex vertexIndex holes tvs p.1 p.2) themes
        (fun p _ => getTextureDataTheme_ok json surfaceIndex vertexIndex holes tvs p.1 p.2)
      dsimp only
      rw [hrs]
      exact ⟨_, rfl⟩
    | null => exact ⟨_, rfl⟩
    | undefined => exact ⟨_, rfl⟩
    | bool b => exact ⟨_, rfl⟩
    | num n => exact ⟨_, rfl⟩
    | str st => exact ⟨_, rfl⟩

/-- Evaluation of the per-theme body on the success path: every check of the
shipped code passes and the spec-modelled success continuation produces the
(possibly atlas-remapped) record with no warning. -/
theorem theme_eval_success {json : CityJson} {surfaceIndex : ℕ} {vertexIndex : ℤ}
    {holes : List ℤ} {tvs : List JVal} {th : String} {e : ThemeEntry}
    {vals ds ring0 ring : List JVal} {t k : ℚ} {kn : ℕ} {u v : ℚ}
    (h1 : e.values = some (.arr vals))
    (hsiLt : surfaceIndex < vals.length)
    (hsi : vals.getD surfaceIndex .undefined = .arr ds)
    (h3 : ds.getD 0 .undefined = .arr ring0)
    (h4 : ring0.getD 0 .undefined = .num (.fin t))
    (h6 : ds.getD (ringIdOf holes vertexIndex) .undefined = .arr ring)
    (h7a : 0 ≤ vIdOf holes vertexIndex + 1)
    (h7b : ring.getD (vIdOf holes vertexIndex + 1).toNat .undefined = .num (.fin k))
    (h8 : qToIdx k = some kn)
    (hknLt : kn < tvs.length)
    (h9 : tvs.getD kn .undefined = .arr [.num (.fin u), .num (.fin v)]) :
    getTextureDataTheme json surfaceIndex vertexIndex holes tvs th e =
      .ok ((th, applyAtlasRemap (texturesOf json)
        ⟨.num (.fin t), .arr [.num (.fin u), .num (.fin v)]⟩), []) := by
  have hpos : 0 < tvs.length := lt_of_le_of_lt (Nat.zero_le kn) hknLt
  have hnle : ¬ surfaceIndex ≥ vals.length := Nat.not_le.mpr hsiLt
  simp only [getTextureDataTheme, h1, hsi, h3, h4, h6, h7b, h8, h9, hpos, hnle,
    jsAccess, jsIndexBy, JVal.truthy, JVal.isNull, JVal.isUndef, JVal.isArr,
    hasBadCoord, badCoord, List.any_cons, List.any_nil, if_pos h7a,
    decide_False, Bool.false_or, Bool.not_true, Bool.false_eq_true, if_false,
    if_true, Bool.or_self, Bool.or_false, Bool.not_false, Bool.true_eq_false]

theorem truthy_arr (xs : List JVal) : (JVal.arr xs).truthy = true := rfl

theorem isNull_num (n : JNum) : (JVal.num n).isNull = false := rfl

theorem isUndef_num (n : JNum) : (JVal.num n).isUndef = false := rfl

/-- Evaluation of the per-theme body when the surface index is out of range of
the theme's `values` array (line 123): the default record, with a warning. -/
theorem theme_eval_surfaceOOR {json : CityJson} {surfaceIndex : ℕ} {vertexIndex : ℤ}
    {holes : List ℤ} {tvs : List JVal} {th : String} {e : ThemeEntry} {vals : List JVal}
    (h1 : e.values = some (.arr vals))
    (hpos : 0 < tvs.length)
    (hge : surfaceIndex ≥ vals.length) :
    getTextureDataTheme json surfaceIndex vertexIndex holes tvs th e =
      .ok ((th, defaultRec), ["Missing texture values for surface"]) := by
  simp only [getTextureDataTheme, h1, hpos, hge, if_true, decide_True, Bool.true_or]

/-- Evaluation of the per-theme body when ring 0 carries a non-null texture
index but the ring data for the computed ring id is missing (line 142): the
fallback keeps the ring-0 texture index and zero UVs. -/
theorem theme_eval_ringMiss {json : CityJson} {surfaceIndex : ℕ} {vertexIndex : ℤ}
    {holes : List ℤ} {tvs : List JVal} {th : String} {e : ThemeEntry}
    {vals ds ring0 : List JVal} {t : ℚ}
    (h1 : e.values = some (.arr vals))
    (hpos : 0 < tvs.length)
    (hsiLt : surfaceIndex < vals.length)
    (hsi : vals.getD surfaceIndex .undefined = .arr ds)
    (h3 : ds.getD 0 .undefined = .arr ring0)
    (h4 : ring0.getD 0 .undefined = .num (.fin t))
    (hring : (ds.getD (ringIdOf holes vertexIndex) .undefined).truthy = false) :
    getTextureDataTheme json surfaceIndex vertexIndex holes tvs th e =
      .ok ((th, ⟨.num (.fin t), zeroUv⟩), ["Missing texture ring data"]) := by
  have hnle : ¬ surfaceIndex ≥ vals.length := Nat.not_le.mpr hsiLt
  simp only [getTextureDataTheme, h1, hsi, h3, h4, hpos, hnle, hring,
    truthy_arr, isNull_num, decide_False, Bool.false_or, Bool.not_true,
    Bool.not_false, Bool.false_eq_true, Bool.true_eq_false, if_false, if_true]

/-- Evaluation of the per-theme body when the ring exists but the ring/vertex
lookup yields `undefined` (line 151): the fallback keeps the ring-0 texture
index and zero UVs. -/
theorem theme_eval_uvIndexMiss {json : CityJson} {surfaceIndex : ℕ} {vertexIndex : ℤ}
    {holes : List ℤ} {tvs : List JVal} {th : String} {e : ThemeEntry}
    {vals ds ring0 ring : List JVal} {t : ℚ}
    (h1 : e.values = some (.arr vals))
    (hpos : 0 < tvs.length)
    (hsiLt : surfaceIndex < vals.length)
    (hsi : vals.getD surfaceIndex .undefined = .arr ds)
    (h3 : ds.getD 0 .undefined = .arr ring0)
    (h4 : ring0.getD 0 .undefined = .num (.fin t))
    (h6 : ds.getD (ringIdOf holes vertexIndex) .undefined = .arr ring)
    (huv : jsAccess (.arr ring) (vIdOf holes vertexIndex + 1) = .ok .undefined) :
    getTextureDataTheme json surfaceIndex vertexIndex holes tvs th e =
      .ok ((th, ⟨.num (.fin t), zeroUv⟩), ["Missing UV index"]) := by
  have hnle : ¬ surfaceIndex ≥ vals.length := Nat.not_le.mpr hsiLt
  simp only [getTextureDataTheme, h1, hsi, h3, h4, h6, huv, hpos, hnle,
    truthy_arr, isNull_num, JVal.isUndef, decide_False, Bool.false_or,
    Bool.not_true, Bool.not_false, Bool.false_eq_true, Bool.true_eq_false,
    if_false, if_true]

/-- Evaluation of the per-theme body when the ring/vertex lookup yields a
defined UV-table key but the looked-up UV entry fails line 161's check
(missing, falsy, not an array, or containing a non-number/NaN coordinate):
the fallback keeps the ring-0 texture index and zero UVs, and warns exactly
when the looked-up entry is truthy (the missing-entry warn is commented out in
the source). -/
theorem theme_eval_badUv {json : CityJson} {surfaceIndex : ℕ} {vertexIndex : ℤ}
    {holes : List ℤ} {tvs : List JVal} {th : String} {e : ThemeEntry}
    {vals ds ring0 ring : List JVal} {t : ℚ} {uvx : JVal}
    (h1 : e.values = some (.arr vals))
    (hpos : 0 < tvs.length)
    (hsiLt : surfaceIndex < vals.length)
    (hsi : vals.getD surfaceIndex .undefined = .arr ds)
    (h3 : ds.getD 0 .undefined = .arr ring0)
    (h4 : ring0.getD 0 .undefined = .num (.fin t))
    (h6 : ds.getD (ringIdOf holes vertexIndex) .undefined = .arr ring)
    (huv : jsAccess (.arr ring) (vIdOf holes vertexIndex + 1) = .ok uvx)
    (hnundef : uvx.isUndef = false)
    (hbad : (!(jsIndexBy tvs uvx).truthy || !(jsIndexBy tvs uvx).isArr
      || hasBadCoord (jsIndexBy tvs uvx)) = true) :
    getTextureDataTheme json surfaceIndex vertexIndex holes tvs th e =
      .ok ((th, ⟨.num (.fin t), zeroUv⟩),
        if (jsIndexBy tvs uvx).truthy then ["Invalid UV coordinates"] else []) := by
  have hnle : ¬ surfaceIndex ≥ vals.length := Nat.not_le.mpr hsiLt
  simp only [getTextureDataTheme, h1, hsi, h3, h4, h6, huv, hnundef, hbad, hpos, hnle,
    truthy_arr, isNull_num, decide_False, Bool.false_or, Bool.not_true,
    Bool.not_false, Bool.false_eq_true, Bool.true_eq_false, if_false, if_true]

theorem getLastD_mem {l : List ℤ} (d : ℤ) (h : l ≠ []) : l.getLastD d ∈ l := by
  have : l.getLastD d = l.getLast h := by
    cases l with
    | nil => simp at h
    | cons a as => simp [List.getLastD_eq_getLast?, List.getLast?_eq_getLast]
  rw [this]
  exact List.getLast_mem h

theorem sorted_le_getLastD {l : List ℤ} {x : ℤ} (d : ℤ) :
    List.Pairwise (· ≤ ·) l → x ∈ l → x ≤ l.getLastD d := by
  induction l with
  | nil => intro _ hx; cases hx
  | cons y ys ih =>
    intro hs hx
    cases hys : ys with
    | nil =>
      subst hys
      have hxy : x = y := by simpa using hx
      subst hxy
      simp [List.getLastD_eq_getLast?]
    | cons z zs =>
      subst hys
      have hlast : ((y :: z :: zs).getLastD d) = ((z :: zs).getLastD d) := by
        simp [List.getLastD_eq_getLast?]
      rw [hlast]
      rcases List.mem_cons.mp hx with hxy | hxys
      · subst hxy
        have hmem : ((z :: zs).getLastD d) ∈ z :: zs := getLastD_mem d (by simp)
        exact (List.pairwise_cons.mp hs).1 _ hmem
      · exact ih (List.pairwise_cons.mp hs).2 hxys

theorem applyAtlasRemap_applies {ts : List TextureEntry} {t u v : ℚ} {n : ℕ}
    {en : TextureEntry} {p : ℕ} {x y w h : ℚ}
    (hq : qToIdx t = some n) (hg : ts.get? n = some en)
    (ha : en.atlas = some (p, x, y, w, h)) (hp : p < ts.length) :
    applyAtlasRemap ts ⟨.num (.fin t), .arr [.num (.fin u), .num (.fin v)]⟩ =
      ⟨.num (.fin p), .arr [.num (.fin (u * w + x)), .num (.fin (v * h + y))]⟩ := by
  simp only [applyAtlasRemap, hq, hg, ha, hp, if_true]

theorem applyAtlasRemap_dangling {ts : List TextureEntry} {t u v : ℚ} {n : ℕ}
    {en : TextureEntry} {p : ℕ} {x y w h : ℚ}
    (hq : qToIdx t = some n) (hg : ts.get? n = some en)
    (ha : en.atlas = some (p, x, y, w, h)) (hp : ¬ p < ts.length) :
    applyAtlasRemap ts ⟨.num (.fin t), .arr [.num (.fin u), .num (.fin v)]⟩ =
      ⟨.num (.fin t), .arr [.num (.fin u), .num (.fin v)]⟩ := by
  simp only [applyAtlasRemap, hq, hg, ha, hp, if_false]

theorem applyAtlasRemap_noAtlas {ts : List TextureEntry} {t u v : ℚ} {n : ℕ}
    {en : TextureEntry}
    (hq : qToIdx t = some n) (hg : ts.get? n = some en) (ha : en.atlas = none) :
    applyAtlasRemap ts ⟨.num (.fin t), .arr [.num (.fin u), .num (.fin v)]⟩ =
      ⟨.num (.fin t), .arr [.num (.fin u), .num (.fin v)]⟩ := by
  simp only [applyAtlasRemap, hq, hg, ha]

theorem applyAtlasRemap_of_noRemap {ts : List TextureEntry} {t u v : ℚ}
    (hnr : ∀ n, qToIdx t = some n → noRemapAt ts n) :
    applyAtlasRemap ts ⟨.num (.fin t), .arr [.num (.fin u), .num (.fin v)]⟩ =
      ⟨.num (.fin t), .arr [.num (.fin u), .num (.fin v)]⟩ := by
  unfold applyAtlasRemap
  dsimp only
  cases hq : qToIdx t with
  | none => rfl
  | some n =>
    dsimp only
    cases hg : ts.get? n with
    | none => rfl
    | some en =>
      dsimp only
      cases ha : en.atlas with
      | none => rfl
      | some a =>
        obtain ⟨p, x, y, w, h⟩ := a
        have := hnr n hq en hg _ ha
        dsimp only
        rw [if_neg this]

theorem jsIndexOf_spec (x : String) (l : List String) :
    (x ∉ l → jsIndexOf x l = -1) ∧
    (x ∈ l → ∃ n : ℕ, jsIndexOf x l = (n : ℤ) ∧ l.get? n = some x ∧
      ∀ m < n, l.get? m ≠ some x) := by
  induction l with
  | nil => exact ⟨fun _ => rfl, fun hx => absurd hx (List.not_mem_nil x)⟩
  | cons y ys ih =>
    constructor
    · intro hx
      have hxy : ¬ y = x := fun he => hx (he ▸ List.mem_cons_self y ys)
      have hr : jsIndexOf x ys = -1 := ih.1 (fun hm => hx (List.mem_cons_of_mem y hm))
      simp [jsIndexOf, hxy, hr]
    · intro hx
      by_cases hxy : y = x
      · refine ⟨0, by simp [jsIndexOf, hxy], by simp [hxy], fun m hm => absurd hm (Nat.not_lt_zero m)⟩
      · have hxys : x ∈ ys := by
          rcases List.mem_cons.mp hx with he | hm
          · exact absurd he.symm hxy
          · exact hm
        obtain ⟨n, hn, hget, hmin⟩ := ih.2 hxys
        refine ⟨n + 1, ?_, by simpa using hget, ?_⟩
        · have hnn : ¬ ((n : ℤ) < 0) := by omega
          simp [jsIndexOf, hxy, hn, hnn]
        · intro m hm
          cases m with
          | zero =>
            simp only [List.get?]
            intro he
            exact hxy (by injection he)
          | succ k =>
            intro hk
            exact hmin k (Nat.lt_of_succ_lt_succ hm) (by simpa using hk)

/-- C3: `getTextureData` derives the ring id of a flattened vertex position as
the number of hole-start offsets `<=` that position (`ringIdOf`, lines
117-119), and the within-ring vertex id as the position minus the largest
qualifying offset, or the position itself when no offset qualifies (`vIdOf`,
line 120); in particular, with hole-offset list `[4]`, a vertex at flattened
position 5 resolves to ring id 1, within-ring id 1. -/
theorem ring_arithmetic_spec (holes : List ℤ) (v : ℤ)
    (hs : List.Pairwise (· ≤ ·) holes) :
    ringIdOf holes v = holes.countP (fun z => z ≤ v) ∧
    (holes.filter (fun z => z ≤ v) = [] → vIdOf holes v = v) ∧
    (∀ m, m ∈ holes → m ≤ v → (∀ z ∈ holes, z ≤ v → z ≤ m) → vIdOf holes v = v - m) ∧
    ringIdOf [4] 5 = 1 ∧ vIdOf [4] 5 = 1 := by
  refine ⟨?_, ?_, ?_, rfl, rfl⟩
  · rw [ringIdOf, List.countP_eq_length_filter]
  · intro hemp
    rw [vIdOf]
    simp [hemp]
  · intro m hm hmle hmax
    have hmf : m ∈ holes.filter (fun z => z ≤ v) :=
      List.mem_filter.mpr ⟨hm, by simpa using hmle⟩
    have hne : holes.filter (fun z => z ≤ v) ≠ [] := by
      intro he
      rw [he] at hmf
      cases hmf
    have hsf : List.Pairwise (· ≤ ·) (holes.filter (fun z => z ≤ v)) :=
      List.Pairwise.filter _ hs
    have hlastmem : (holes.filter (fun z => z ≤ v)).getLastD 0 ∈ holes.filter (fun z => z ≤ v) :=
      getLastD_mem 0 hne
    have h1 : (holes.filter (fun z => z ≤ v)).getLastD 0 ≤ m := by
      obtain ⟨hin, hle⟩ := List.mem_filter.mp hlastmem
      exact hmax _ hin (by simpa using hle)
    have h2 : m ≤ (holes.filter (fun z => z ≤ v)).getLastD 0 :=
      sorted_le_getLastD 0 hsf hmf
    have heq : (holes.filter (fun z => z ≤ v)).getLastD 0 = m := le_antisymm h1 h2
    unfold vIdOf
    rw [if_neg (fun h0 => hne (List.length_eq_zero.mp h0)), heq]

/-- Witness for C3: the theorem applied at hole-offset list `[4]`, flattened
position 5, and largest qualifying offset 4. -/
theorem ring_arithmetic_spec_witness :
    List.Pairwise (· ≤ ·) ([4] : List ℤ) ∧ ringIdOf [4] 5 = 1 ∧ vIdOf [4] 5 = 5 - 4 := by
  have hs : List.Pairwise (· ≤ ·) ([4] : List ℤ) := by simp
  obtain ⟨_, _, hmax, hr, _⟩ := ring_arithmetic_spec [4] 5 hs
  refine ⟨hs, hr, hmax 4 (by simp) (by norm_num) ?_⟩
  intro z hz _
  simp at hz
  omega

/-- C9 (amended): `getObjectIdx` resolves an identifier to the position of its
first occurrence in the session's `objectIds` list, returns the sentinel `-1`
for an identifier absent from the list rather than interning it, performs no
write (the registry is returned unchanged), and a repeated call with the same
identifier returns the same integer. -/
theorem getObjectIdx_spec (objectIds : List String) (objectId : String) :
    (getObjectIdxS objectIds objectId).2 = objectIds ∧
    (getObjectIdxS ((getObjectIdxS objectIds objectId).2) objectId).1 =
      (getObjectIdxS objectIds objectId).1 ∧
    (objectId ∉ objectIds → (getObjectIdxS objectIds objectId).1 = -1) ∧
    (objectId ∈ objectIds → ∃ n : ℕ,
      (getObjectIdxS objectIds objectId).1 = (n : ℤ) ∧
      objectIds.get? n = some objectId ∧ ∀ m < n, objectIds.get? m ≠ some objectId) :=
  ⟨rfl, rfl, (jsIndexOf_spec objectId objectIds).1, (jsIndexOf_spec objectId objectIds).2⟩

/-- Witness for C9: the theorem applied at the registry `["a", "b"]` and the
identifier `"b"`. -/
theorem getObjectIdx_spec_witness :
    ("b" ∈ (["a", "b"] : List String)) ∧ ∃ n : ℕ,
      (getObjectIdxS ["a", "b"] "b").1 = (n : ℤ) ∧
      (["a", "b"] : List String).get? n = some "b" ∧
      ∀ m < n, (["a", "b"] : List String).get? m ≠ some "b" := by
  have hmem : "b" ∈ (["a", "b"] : List String) := by simp
  exact ⟨hmem, (getObjectIdx_spec ["a", "b"] "b").2.2.2 hmem⟩

/-- Counterexample for C9 as stated: the previously-unseen identifier "obj2"
is not assigned a new index on first sight — the call returns the sentinel
`-1`, not the fresh dense index (which would be the registry length, 1), and
the registry is left unchanged (no lazy interning happens). -/
theorem getObjectIdx_no_interning :
    (getObjectIdxS ["obj1"] "obj2").1 = -1 ∧
    (getObjectIdxS ["obj1"] "obj2").2 = ["obj1"] ∧
    (getObjectIdxS ["obj1"] "obj2").1 ≠ ((["obj1"] : List String).length : ℤ) := by
  refine ⟨rfl, rfl, by decide⟩

/-- C10: for every surface index and material theme table, `getSurfaceMaterials`
yields one entry per theme in theme order; a theme carrying a per-surface
`values` array contributes `values[idx]` (JavaScript indexing, `undefined` out
of range), otherwise its scalar `value` when that is not `undefined`, and `-1`
when neither is present; a `null`/absent material table yields the empty
result, containing no themes. -/
theorem getSurfaceMaterials_spec (idx : ℕ) :
    getSurfaceMaterials idx none = [] ∧
    ∀ entries : List (String × MatEntry),
      (getSurfaceMaterials idx (some entries)).map Prod.fst = entries.map Prod.fst ∧
      ∀ th obj, (th, obj) ∈ entries →
        (∀ vs, obj.values = some vs →
          (th, vs.getD idx .undefined) ∈ getSurfaceMaterials idx (some entries)) ∧
        (∀ w, obj.values = none → obj.value = some w →
          (th, w) ∈ getSurfaceMaterials idx (some entries)) ∧
        (obj.values = none → obj.value = none →
          (th, JVal.num (.fin (-1))) ∈ getSurfaceMaterials idx (some entries)) := by
  refine ⟨rfl, fun entries => ⟨?_, fun th obj hmem => ⟨?_, ?_, ?_⟩⟩⟩
  · rw [getSurfaceMaterials, List.map_map]
    refine List.map_congr_left (fun p _ => ?_)
    cases hv : p.2.values with
    | some vs => simp [hv]
    | none =>
      cases hw : p.2.value with
      | some w => simp [hv, hw]
      | none => simp [hv, hw]
  · intro vs hvs
    rw [getSurfaceMaterials]
    exact List.mem_map.mpr ⟨(th, obj), hmem, by simp [hvs]⟩
  · intro w hvs hw
    rw [getSurfaceMaterials]
    exact List.mem_map.mpr ⟨(th, obj), hmem, by simp [hvs, hw]⟩
  · intro hvs hw
    rw [getSurfaceMaterials]
    exact List.mem_map.mpr ⟨(th, obj), hmem, by simp [hvs, hw]⟩

/-- Witness for C10: a three-theme table exercising the per-surface array, the
scalar value and the default branches at surface index 0. -/
theorem getSurfaceMaterials_spec_witness :
    (("a", JVal.num (.fin 7)) ∈ getSurfaceMaterials 0
      (some [("a", ⟨some [.num (.fin 7)], none⟩), ("b", ⟨none, some (.num (.fin 5))⟩),
        ("c", ⟨none, none⟩)])) ∧
    (("b", JVal.num (.fin 5)) ∈ getSurfaceMaterials 0
      (some [("a", ⟨some [.num (.fin 7)], none⟩), ("b", ⟨none, some (.num (.fin 5))⟩),
        ("c", ⟨none, none⟩)])) ∧
    (("c", JVal.num (.fin (-1))) ∈ getSurfaceMaterials 0
      (some [("a", ⟨some [.num (.fin 7)], none⟩), ("b", ⟨none, some (.num (.fin 5))⟩),
        ("c", ⟨none, none⟩)])) := by
  have h := (getSurfaceMaterials_spec 0).2
    [("a", ⟨some [.num (.fin 7)], none⟩), ("b", ⟨none, some (.num (.fin 5))⟩),
      ("c", ⟨none, none⟩)]
  refine ⟨?_, ?_, ?_⟩
  · have := (h.2 "a" ⟨some [.num (.fin 7)], none⟩ (by simp)).1 [.num (.fin 7)] rfl
    simpa using this
  · exact (h.2 "b" ⟨none, some (.num (.fin 5))⟩ (by simp)).2.1 (.num (.fin 5)) rfl rfl
  · exact (h.2 "c" ⟨none, none⟩ (by simp)).2.2 rfl rfl

/-- C8 (amended): the two instances alias the single module-level
`defaultSemanticsColors` object as their surface-type registry, so interning a
fresh surface type through the first instance is visible through the second:
the shared registry gains the type at the next index (the previous key count),
and the set of surface types observed through the second instance changes
accordingly. -/
theorem surface_registry_shared (m : ColorMap) (t : String) (c : ℕ)
    (hfresh : t ∉ m.map Prod.fst) :
    (internViaFirst ⟨m⟩ 0 [.num (.fin 0)] [⟨t⟩] c).1 = (m.length : ℤ) ∧
    (internViaFirst ⟨m⟩ 0 [.num (.fin 0)] [⟨t⟩] c).2.sharedSurfaceColors = m ++ [(t, c)] ∧
    surfaceTypesViaSecond (internViaFirst ⟨m⟩ 0 [.num (.fin 0)] [⟨t⟩] c).2 =
      surfaceTypesViaSecond ⟨m⟩ ++ [t] ∧
    t ∉ surfaceTypesViaSecond ⟨m⟩ ∧
    t ∈ surfaceTypesViaSecond (internViaFirst ⟨m⟩ 0 [.num (.fin 0)] [⟨t⟩] c).2 := by
  have hlen : ((0 : ℚ).den = 1 ∧ (0 : ℤ) ≤ (0 : ℚ).num) := by norm_num
  have heval : internViaFirst ⟨m⟩ 0 [.num (.fin 0)] [⟨t⟩] c =
      ((m.length : ℤ), ⟨m ++ [(t, c)]⟩) := by
    unfold internViaFirst getSurfaceTypeIdx semanticSurfaceAt qToIdx
    simp [hfresh]
  refine ⟨by rw [heval], by rw [heval], ?_, ?_, ?_⟩
  · rw [heval]
    simp [surfaceTypesViaSecond, observedViaSecond]
  · simpa [surfaceTypesViaSecond, observedViaSecond] using hfresh
  · rw [heval]
    simp [surfaceTypesViaSecond, observedViaSecond]

/-- Witness for C8 (amended): interning "Window" through the first instance
starting from the module-level default colors. -/
theorem surface_registry_shared_witness :
    "Window" ∉ defaultSemanticsColors.map Prod.fst ∧
    (internViaFirst ⟨defaultSemanticsColors⟩ 0 [.num (.fin 0)] [⟨"Window"⟩] 0).1 =
      (defaultSemanticsColors.length : ℤ) ∧
    "Window" ∈ surfaceTypesViaSecond
      (internViaFirst ⟨defaultSemanticsColors⟩ 0 [.num (.fin 0)] [⟨"Window"⟩] 0).2 := by
  have hfresh : "Window" ∉ defaultSemanticsColors.map Prod.fst := by
    simp [defaultSemanticsColors]
  have h := surface_registry_shared defaultSemanticsColors "Window" 0 hfresh
  exact ⟨hfresh, h.1, h.2.2.2.2⟩

/-- Counterexample for C8 as stated: interning the fresh surface type "Window"
via `getSurfaceTypeIdx` through the first parser instance changes the set of
surface types observed through the second instance (both instances alias the
one module-level `defaultSemanticsColors` object), so the two registries are
not independent. -/
theorem surface_registry_not_independent :
    surfaceTypesViaSecond
        (internViaFirst ⟨defaultSemanticsColors⟩ 0 [.num (.fin 0)] [⟨"Window"⟩] 5).2 ≠
      surfaceTypesViaSecond ⟨defaultSemanticsColors⟩ := by
  decide

/-- C1 (amended): when the theme's `values[surfaceIndex]` is an array of rings
whose ring-0 entry starts with a non-null (numeric) texture index, the
ring/vertex entry `values[surfaceIndex][ringId][vId + 1]` is a valid index
into the vertices-texture table, the table entry there is a pair of finite
numbers, and no atlas remap applies to the ring-0 texture index, then
`getTextureData` returns for that theme the record made of the ring-0 texture
index together with the actual UV coordinates from the table — not a default
record. -/
theorem texture_success_no_atlas {json : CityJson} {surfaceIndex : ℕ} {vertexIndex : ℤ}
    {holes : List ℤ} {themes : List (String × ThemeEntry)} {tvs : List JVal}
    {th : String} {e : ThemeEntry} {vals ds ring0 ring : List JVal} {t k : ℚ}
    {kn : ℕ} {u v : ℚ}
    (htv : textureVerticesOf json = .arr tvs)
    (hmem : (th, e) ∈ themes)
    (h1 : e.values = some (.arr vals))
    (hsiLt : surfaceIndex < vals.length)
    (hsi : vals.getD surfaceIndex .undefined = .arr ds)
    (h3 : ds.getD 0 .undefined = .arr ring0)
    (h4 : ring0.getD 0 .undefined = .num (.fin t))
    (h6 : ds.getD (ringIdOf holes vertexIndex) .undefined = .arr ring)
    (h7a : 0 ≤ vIdOf holes vertexIndex + 1)
    (h7b : ring.getD (vIdOf holes vertexIndex + 1).toNat .undefined = .num (.fin k))
    (h8 : qToIdx k = some kn)
    (hknLt : kn < tvs.length)
    (h9 : tvs.getD kn .undefined = .arr [.num (.fin u), .num (.fin v)])
    (hnr : ∀ n, qToIdx t = some n → noRemapAt (texturesOf json) n) :
    ∃ recs warns, getTextureData json surfaceIndex vertexIndex holes (some themes) =
      .ok (some (recs, warns)) ∧
      (th, (⟨.num (.fin t), .arr [.num (.fin u), .num (.fin v)]⟩ : TexRecord)) ∈ recs := by
  have h := getTextureData_mem htv hmem
    (theme_eval_success h1 hsiLt hsi h3 h4 h6 h7a h7b h8 hknLt h9)
  rwa [applyAtlasRemap_of_noRemap hnr] at h

/-- Witness for C1 (amended): a document with no textures table, UV table
`[[3/4, 1/4]]` and a theme whose surface references texture 0, UV entry 0:
resolution returns the ring-0 index 0 with the actual UV pair. -/
theorem texture_success_no_atlas_witness :
    ∃ recs warns, getTextureData plainDoc 0 0 [] (some plainThemes) =
      .ok (some (recs, warns)) ∧
      ("theme1", (⟨.num (.fin 0), .arr [.num (.fin (3/4)), .num (.fin (1/4))]⟩ : TexRecord)) ∈ recs := by
  have htv : textureVerticesOf plainDoc =
      .arr [.arr [.num (.fin (3/4)), .num (.fin (1/4))]] := rfl
  have hmem : ("theme1", (⟨some (.arr [.arr [.arr [.num (.fin 0), .num (.fin 0)]]])⟩ : ThemeEntry))
      ∈ plainThemes := by simp [plainThemes]
  have h1 : (⟨some (.arr [.arr [.arr [.num (.fin 0), .num (.fin 0)]]])⟩ : ThemeEntry).values =
      some (.arr [.arr [.arr [.num (.fin 0), .num (.fin 0)]]]) := rfl
  have hsiLt : 0 < ([.arr [.arr [.num (.fin 0), .num (.fin 0)]]] : List JVal).length := by decide
  have hsi : ([.arr [.arr [.num (.fin 0), .num (.fin 0)]]] : List JVal).getD 0 .undefined =
      .arr [.arr [.num (.fin 0), .num (.fin 0)]] := rfl
  have h3 : ([.arr [.num (.fin 0), .num (.fin 0)]] : List JVal).getD 0 .undefined =
      .arr [.num (.fin 0), .num (.fin 0)] := rfl
  have h4 : ([.num (.fin 0), .num (.fin 0)] : List JVal).getD 0 .undefined = .num (.fin 0) := rfl
  have h6 : ([.arr [.num (.fin 0), .num (.fin 0)]] : List JVal).getD (ringIdOf [] 0) .undefined =
      .arr [.num (.fin 0), .num (.fin 0)] := rfl
  have h7a : (0 : ℤ) ≤ vIdOf [] 0 + 1 := by decide
  have h7b : ([.num (.fin 0), .num (.fin 0)] : List JVal).getD (vIdOf [] 0 + 1).toNat .undefined =
      .num (.fin 0) := rfl
  have h8 : qToIdx 0 = some 0 := rfl
  have hknLt : 0 < ([.arr [.num (.fin (3/4)), .num (.fin (1/4))]] : List JVal).length := by decide
  have h9 : ([.arr [.num (.fin (3/4)), .num (.fin (1/4))]] : List JVal).getD 0 .undefined =
      .arr [.num (.fin (3/4)), .num (.fin (1/4))] := rfl
  have hnr : ∀ n, qToIdx 0 = some n → noRemapAt (texturesOf plainDoc) n := by
    intro n _ en hg
    rw [show texturesOf plainDoc = [] from rfl] at hg
    simp at hg
  exact texture_success_no_atlas htv hmem h1 hsiLt hsi h3 h4 h6 h7a h7b h8 hknLt h9 hnr

/-- Counterexample for C1 as stated: on a document whose textures table makes
texture 1 an atlas sub-texture of texture 0 with region `[0, 0, 1/2, 1/2]`,
all of C1's conditions hold (ring-0 texture index 1, valid UV entry `[1, 1]`),
yet the returned record is the remapped `{ index: 0, uvs: [1/2, 1/2] }` — not
the claimed `{ index: 1, uvs: [1, 1] }` made of the ring-0 index and the raw
table entry. -/
theorem texture_success_no_atlas_counterexample :
    getTextureData atlasDoc 0 0 [] (some atlasThemes) =
      .ok (some ([("theme1", ⟨.num (.fin 0),
        .arr [.num (.fin (1 * (1/2) + 0)), .num (.fin (1 * (1/2) + 0))]⟩)], [])) ∧
    (⟨.num (.fin 0), .arr [.num (.fin (1 * (1/2) + 0)), .num (.fin (1 * (1/2) + 0))]⟩ : TexRecord) =
      ⟨.num (.fin 0), .arr [.num (.fin (1/2)), .num (.fin (1/2))]⟩ ∧
    (⟨.num (.fin 0), .arr [.num (.fin (1/2)), .num (.fin (1/2))]⟩ : TexRecord) ≠
      ⟨.num (.fin 1), .arr [.num (.fin 1), .num (.fin 1)]⟩ := by
  refine ⟨rfl, by norm_num, by norm_num⟩

/-- C2: for a texture entry declaring `atlasTexture` and `atlasRegion`
`[x, y, w, h]`, a successful UV resolution by `getTextureData` against that
texture rewrites the resolved UV pair `(u, v)` to `(u*w + x, v*h + y)` and the
returned texture index to the parent's index; when the `atlasTexture`
reference dangles or is missing, the original (unremapped) index and UV are
returned instead. -/
theorem texture_atlas_remap {json : CityJson} {surfaceIndex : ℕ} {vertexIndex : ℤ}
    {holes : List ℤ} {themes : List (String × ThemeEntry)} {tvs : List JVal}
    {th : String} {e : ThemeEntry} {vals ds ring0 ring : List JVal} {t k : ℚ}
    {kn : ℕ} {u v : ℚ} {n : ℕ}
    (htv : textureVerticesOf json = .arr tvs)
    (hmem : (th, e) ∈ themes)
    (h1 : e.values = some (.arr vals))
    (hsiLt : surfaceIndex < vals.length)
    (hsi : vals.getD surfaceIndex .undefined = .arr ds)
    (h3 : ds.getD 0 .undefined = .arr ring0)
    (h4 : ring0.getD 0 .undefined = .num (.fin t))
    (h6 : ds.getD (ringIdOf holes vertexIndex) .undefined = .arr ring)
    (h7a : 0 ≤ vIdOf holes vertexIndex + 1)
    (h7b : ring.getD (vIdOf holes vertexIndex + 1).toNat .undefined = .num (.fin k))
    (h8 : qToIdx k = some kn)
    (hknLt : kn < tvs.length)
    (h9 : tvs.getD kn .undefined = .arr [.num (.fin u), .num (.fin v)])
    (hq : qToIdx t = some n) :
    (∀ en p gx gy gw gh, (texturesOf json).get? n = some en →
      en.atlas = some (p, gx, gy, gw, gh) → p < (texturesOf json).length →
      ∃ recs warns, getTextureData json surfaceIndex vertexIndex holes (some themes) =
        .ok (some (recs, warns)) ∧
        (th, (⟨.num (.fin p), .arr [.num (.fin (u * gw + gx)), .num (.fin (v * gh + gy))]⟩ :
          TexRecord)) ∈ recs) ∧
    (∀ en p gx gy gw gh, (texturesOf json).get? n = some en →
      en.atlas = some (p, gx, gy, gw, gh) → ¬ p < (texturesOf json).length →
      ∃ recs warns, getTextureData json surfaceIndex vertexIndex holes (some themes) =
        .ok (some (recs, warns)) ∧
        (th, (⟨.num (.fin t), .arr [.num (.fin u), .num (.fin v)]⟩ : TexRecord)) ∈ recs) ∧
    (∀ en, (texturesOf json).get? n = some en → en.atlas = none →
      ∃ recs warns, getTextureData json surfaceIndex vertexIndex holes (some themes) =
        .ok (some (recs, warns)) ∧
        (th, (⟨.num (.fin t), .arr [.num (.fin u), .num (.fin v)]⟩ : TexRecord)) ∈ recs) := by
  have h := getTextureData_mem htv hmem
    (theme_eval_success h1 hsiLt hsi h3 h4 h6 h7a h7b h8 hknLt h9)
  refine ⟨fun en p gx gy gw gh hg ha hp => ?_, fun en p gx gy gw gh hg ha hp => ?_,
    fun en hg ha => ?_⟩
  · rwa [applyAtlasRemap_applies hq hg ha hp] at h
  · rwa [applyAtlasRemap_dangling hq hg ha hp] at h
  · rwa [applyAtlasRemap_noAtlas hq hg ha] at h

/-- Witness for C2: the spec's round-trip vector — atlas sub-texture 1 over
region `[0, 0, 1/2, 1/2]` with source UV `(1, 1)` resolves to `(1/2, 1/2)` and
texture index 0, the parent's index, not the sub-texture's own index 1. -/
theorem texture_atlas_remap_witness :
    (∃ recs warns, getTextureData atlasDoc 0 0 [] (some atlasThemes) =
      .ok (some (recs, warns)) ∧
      ("theme1", (⟨.num (.fin 0),
        .arr [.num (.fin (1 * (1/2) + 0)), .num (.fin (1 * (1/2) + 0))]⟩ : TexRecord)) ∈ recs) ∧
    ((1 : ℚ) * (1/2) + 0 = 1/2) ∧ (0 : ℚ) ≠ 1 := by
  refine ⟨?_, by norm_num, by norm_num⟩
  have htv : textureVerticesOf atlasDoc = .arr [.arr [.num (.fin 1), .num (.fin 1)]] := rfl
  have hmem : ("theme1", (⟨some (.arr [.arr [.arr [.num (.fin 1), .num (.fin 0)]]])⟩ : ThemeEntry))
      ∈ atlasThemes := by simp [atlasThemes]
  have h1 : (⟨some (.arr [.arr [.arr [.num (.fin 1), .num (.fin 0)]]])⟩ : ThemeEntry).values =
      some (.arr [.arr [.arr [.num (.fin 1), .num (.fin 0)]]]) := rfl
  have hsiLt : 0 < ([.arr [.arr [.num (.fin 1), .num (.fin 0)]]] : List JVal).length := by decide
  have hsi : ([.arr [.arr [.num (.fin 1), .num (.fin 0)]]] : List JVal).getD 0 .undefined =
      .arr [.arr [.num (.fin 1), .num (.fin 0)]] := rfl
  have h3 : ([.arr [.num (.fin 1), .num (.fin 0)]] : List JVal).getD 0 .undefined =
      .arr [.num (.fin 1), .num (.fin 0)] := rfl
  have h4 : ([.num (.fin 1), .num (.fin 0)] : List JVal).getD 0 .undefined = .num (.fin 1) := rfl
  have h6 : ([.arr [.num (.fin 1), .num (.fin 0)]] : List JVal).getD (ringIdOf [] 0) .undefined =
      .arr [.num (.fin 1), .num (.fin 0)] := rfl
  have h7a : (0 : ℤ) ≤ vIdOf [] 0 + 1 := by decide
  have h7b : ([.num (.fin 1), .num (.fin 0)] : List JVal).getD (vIdOf [] 0 + 1).toNat .undefined =
      .num (.fin 0) := rfl
  have h8 : qToIdx 0 = some 0 := rfl
  have hknLt : 0 < ([.arr [.num (.fin 1), .num (.fin 1)]] : List JVal).length := by decide
  have h9 : ([.arr [.num (.fin 1), .num (.fin 1)]] : List JVal).getD 0 .undefined =
      .arr [.num (.fin 1), .num (.fin 1)] := rfl
  have hq : qToIdx 1 = some 1 := rfl
  have h := texture_atlas_remap htv hmem h1 hsiLt hsi h3 h4 h6 h7a h7b h8 hknLt h9 hq
  have hg : (texturesOf atlasDoc).get? 1 = some ⟨some (0, 0, 0, 1/2, 1/2)⟩ := rfl
  have hp : (0 : ℕ) < (texturesOf atlasDoc).length := by decide
  have hres := h.1 ⟨some (0, 0, 0, 1/2, 1/2)⟩ 0 0 0 (1/2) (1/2) hg rfl hp
  simpa using hres

/-- C4 (amended): the default record `{ index: -1, uvs: [0, 0] }` is returned
for a theme exactly in the early fallbacks — in particular when the surface
index is out of range of the theme's `values` array; when ring 0 carries a
non-null texture index `t` but the ring lookup misses, the ring/vertex lookup
yields `undefined`, or the resolved UV-table entry is missing or fails the
numeric check, the returned record is `{ index: t, uvs: [0, 0] }` — the ring-0
texture index is preserved, not replaced by `-1`. -/
theorem texture_fallback_records :
    (∀ (json : CityJson) (si : ℕ) (vi : ℤ) (holes : List ℤ)
      (themes : List (String × ThemeEntry)) (tvs : List JVal) (th : String)
      (e : ThemeEntry) (vals : List JVal),
      textureVerticesOf json = .arr tvs → (th, e) ∈ themes →
      e.values = some (.arr vals) → 0 < tvs.length → si ≥ vals.length →
      ∃ recs warns, getTextureData json si vi holes (some themes) =
        .ok (some (recs, warns)) ∧ (th, defaultRec) ∈ recs) ∧
    (∀ (json : CityJson) (si : ℕ) (vi : ℤ) (holes : List ℤ)
      (themes : List (String × ThemeEntry)) (tvs : List JVal) (th : String)
      (e : ThemeEntry) (vals ds ring0 : List JVal) (t : ℚ),
      textureVerticesOf json = .arr tvs → (th, e) ∈ themes →
      e.values = some (.arr vals) → 0 < tvs.length → si < vals.length →
      vals.getD si .undefined = .arr ds → ds.getD 0 .undefined = .arr ring0 →
      ring0.getD 0 .undefined = .num (.fin t) →
      (ds.getD (ringIdOf holes vi) .undefined).truthy = false →
      ∃ recs warns, getTextureData json si vi holes (some themes) =
        .ok (some (recs, warns)) ∧
        (th, (⟨.num (.fin t), zeroUv⟩ : TexRecord)) ∈ recs) ∧
    (∀ (json : CityJson) (si : ℕ) (vi : ℤ) (holes : List ℤ)
      (themes : List (String × ThemeEntry)) (tvs : List JVal) (th : String)
      (e : ThemeEntry) (vals ds ring0 ring : List JVal) (t : ℚ),
      textureVerticesOf json = .arr tvs → (th, e) ∈ themes →
      e.values = some (.arr vals) → 0 < tvs.length → si < vals.length →
      vals.getD si .undefined = .arr ds → ds.getD 0 .undefined = .arr ring0 →
      ring0.getD 0 .undefined = .num (.fin t) →
      ds.getD (ringIdOf holes vi) .undefined = .arr ring →
      jsAccess (.arr ring) (vIdOf holes vi + 1) = .ok .undefined →
      ∃ recs warns, getTextureData json si vi holes (some themes) =
        .ok (some (recs, warns)) ∧
        (th, (⟨.num (.fin t), zeroUv⟩ : TexRecord)) ∈ recs) ∧
    (∀ (json : CityJson) (si : ℕ) (vi : ℤ) (holes : List ℤ)
      (themes : List (String × ThemeEntry)) (tvs : List JVal) (th : String)
      (e : ThemeEntry) (vals ds ring0 ring : List JVal) (t : ℚ) (uvx : JVal),
      textureVerticesOf json = .arr tvs → (th, e) ∈ themes →
      e.values = some (.arr vals) → 0 < tvs.length → si < vals.length →
      vals.getD si .undefined = .arr ds → ds.getD 0 .undefined = .arr ring0 →
      ring0.getD 0 .undefined = .num (.fin t) →
      ds.getD (ringIdOf holes vi) .undefined = .arr ring →
      jsAccess (.arr ring) (vIdOf holes vi + 1) = .ok uvx →
      uvx.isUndef = false →
      (!(jsIndexBy tvs uvx).truthy || !(jsIndexBy tvs uvx).isArr
        || hasBadCoord (jsIndexBy tvs uvx)) = true →
      ∃ recs warns, getTextureData json si vi holes (some themes) =
        .ok (some (recs, warns)) ∧
        (th, (⟨.num (.fin t), zeroUv⟩ : TexRecord)) ∈ recs) := by
  refine ⟨?_, ?_, ?_, ?_⟩
  · intro json si vi holes themes tvs th e vals htv hmem h1 hpos hge
    exact getTextureData_mem htv hmem (theme_eval_surfaceOOR h1 hpos hge)
  · intro json si vi holes themes tvs th e vals ds ring0 t htv hmem h1 hpos hsiLt hsi h3 h4 hring
    exact getTextureData_mem htv hmem (theme_eval_ringMiss h1 hpos hsiLt hsi h3 h4 hring)
  · intro json si vi holes themes tvs th e vals ds ring0 ring t htv hmem h1 hpos hsiLt hsi h3 h4 h6 huv
    exact getTextureData_mem htv hmem (theme_eval_uvIndexMiss h1 hpos hsiLt hsi h3 h4 h6 huv)
  · intro json si vi holes themes tvs th e vals ds ring0 ring t uvx htv hmem h1 hpos hsiLt hsi h3 h4 h6 huv hnundef hbad
    exact getTextureData_mem htv hmem (theme_eval_badUv h1 hpos hsiLt hsi h3 h4 h6 huv hnundef hbad)

/-- Witness for C4 (amended): both fallback families at concrete inputs — the
out-of-range surface index 99 yields the default record, and the out-of-range
UV-table index 99 yields the record keeping ring-0 texture index 0. -/
theorem texture_fallback_records_witness :
    (∃ recs warns, getTextureData smallDoc 99 0 [] (some smallThemes) =
      .ok (some (recs, warns)) ∧ ("t", defaultRec) ∈ recs) ∧
    (∃ recs warns, getTextureData smallDoc 0 0 [] (some smallThemes) =
      .ok (some (recs, warns)) ∧
      ("t", (⟨.num (.fin 0), zeroUv⟩ : TexRecord)) ∈ recs) := by
  constructor
  · have hmem : ("t", (⟨some (.arr [.arr [.arr [.num (.fin 0), .num (.fin 99)]]])⟩ : ThemeEntry))
        ∈ smallThemes := by simp [smallThemes]
    exact texture_fallback_records.1 smallDoc 99 0 [] smallThemes
      [.arr [.num (.fin 0), .num (.fin 0)]] "t"
      ⟨some (.arr [.arr [.arr [.num (.fin 0), .num (.fin 99)]]])⟩
      [.arr [.arr [.num (.fin 0), .num (.fin 99)]]]
      rfl hmem rfl (by decide) (by decide)
  · have hmem : ("t", (⟨some (.arr [.arr [.arr [.num (.fin 0), .num (.fin 99)]]])⟩ : ThemeEntry))
        ∈ smallThemes := by simp [smallThemes]
    exact texture_fallback_records.2.2.2 smallDoc 0 0 [] smallThemes
      [.arr [.num (.fin 0), .num (.fin 0)]] "t"
      ⟨some (.arr [.arr [.arr [.num (.fin 0), .num (.fin 99)]]])⟩
      [.arr [.arr [.num (.fin 0), .num (.fin 99)]]]
      [.arr [.num (.fin 0), .num (.fin 99)]]
      [.num (.fin 0), .num (.fin 99)]
      [.num (.fin 0), .num (.fin 99)]
      0 (.num (.fin 99))
      rfl hmem rfl (by decide) (by decide) rfl rfl rfl rfl rfl rfl (by decide)

/-- Counterexample for C4 as stated: with UV table `[[0, 0]]` and a surface
whose ring 0 is `[0, 99]` (texture index 0, UV-table index 99 out of range),
the resolved UV-table entry is missing, yet the returned record is
`{ index: 0, uvs: [0, 0] }` — not the claimed default `{ index: -1, uvs: [0, 0] }`. -/
theorem texture_fallback_records_counterexample :
    getTextureData smallDoc 0 0 [] (some smallThemes) =
      .ok (some ([("t", ⟨.num (.fin 0), zeroUv⟩)], [])) ∧
    (⟨.num (.fin 0), zeroUv⟩ : TexRecord) ≠ defaultRec := by
  refine ⟨rfl, fun h => ?_⟩
  norm_num [defaultRec, TexRecord.mk.injEq] at h

theorem theme_eval_emptyTvs (json : CityJson) (surfaceIndex : ℕ) (vertexIndex : ℤ)
    (holes : List ℤ) (th : String) (e : ThemeEntry) :
    ∃ w, getTextureDataTheme json surfaceIndex vertexIndex holes [] th e =
      .ok ((th, defaultRec), w) := by
  unfold getTextureDataTheme
  cases hv : e.values with
  | none => exact ⟨[], rfl⟩
  | some v =>
    cases v with
    | arr vals => exact ⟨["Texture values is not an array"], rfl⟩
    | null => exact ⟨_, rfl⟩
    | undefined => exact ⟨_, rfl⟩
    | bool b => exact ⟨_, rfl⟩
    | num n => exact ⟨_, rfl⟩
    | str st => exact ⟨_, rfl⟩

/-- C6 (amended): when the document's appearance block has no
`vertices-texture` table at all (the appearance block is absent, or the field
is absent), line 103 resolves the table to `[]`, which passes the
`Array.isArray` guard, and `getTextureData` returns a default record
`{ index: -1, uvs: [0, 0] }` per theme — not `undefined`; the call returns
`undefined` only when the texture-table argument itself is absent, or when a
`vertices-texture` value is present (and truthy) but is not an array. -/
theorem texture_missing_uv_table :
    (∀ (json : CityJson) (si : ℕ) (vi : ℤ) (holes : List ℤ)
      (themes : List (String × ThemeEntry)) (th : String) (e : ThemeEntry),
      json.appearance.bind (fun app => app.verticesTexture) = none →
      (th, e) ∈ themes →
      ∃ recs warns, getTextureData json si vi holes (some themes) =
        .ok (some (recs, warns)) ∧ (th, defaultRec) ∈ recs) ∧
    (∀ (json : CityJson) (app : Appearance) (vt : JVal) (si : ℕ) (vi : ℤ)
      (holes : List ℤ) (themes : List (String × ThemeEntry)),
      json.appearance = some app → app.verticesTexture = some vt →
      vt.truthy = true → vt.isArr = false →
      getTextureData json si vi holes (some themes) = .ok none) ∧
    (∀ (json : CityJson) (si : ℕ) (vi : ℤ) (holes : List ℤ),
      getTextureData json si vi holes none = .ok none) := by
  refine ⟨?_, ?_, fun json si vi holes => rfl⟩
  · intro json si vi holes themes th e hnone hmem
    have htv : textureVerticesOf json = .arr [] := by
      cases happ : json.appearance with
      | none => simp [textureVerticesOf, happ]
      | some app =>
        rw [happ] at hnone
        simp only [Option.some_bind] at hnone
        simp [textureVerticesOf, happ, hnone]
    obtain ⟨w, hw⟩ := theme_eval_emptyTvs json si vi holes th e
    exact getTextureData_mem htv hmem hw
  · intro json app vt si vi holes themes happ hvt htr harr
    have htv : textureVerticesOf json = vt := by
      simp [textureVerticesOf, happ, hvt, htr]
    unfold getTextureData
    dsimp only
    rw [htv]
    cases vt with
    | arr tvs => simp [JVal.isArr] at harr
    | null => rfl
    | undefined => rfl
    | bool b => rfl
    | num n => rfl
    | str st => rfl

/-- Witness for C6 (amended): the appearance block `{ textures: [] }` with no
`vertices-texture` field yields the per-theme default record, and a
non-array `vertices-texture` value (a string) yields `undefined`. -/
theorem texture_missing_uv_table_witness :
    (∃ recs warns, getTextureData noVtDoc 0 0 [] (some noVtThemes) =
      .ok (some (recs, warns)) ∧ ("default", defaultRec) ∈ recs) ∧
    getTextureData ⟨some ⟨some (.str "oops"), none⟩⟩ 0 0 [] (some noVtThemes) = .ok none := by
  constructor
  · exact texture_missing_uv_table.1 noVtDoc 0 0 [] noVtThemes "default"
      ⟨some (.arr [.arr [.arr [.num (.fin 0), .num (.fin 0), .num (.fin 1), .num (.fin 2)]]])⟩
      rfl (by simp [noVtThemes])
  · exact texture_missing_uv_table.2.1 ⟨some ⟨some (.str "oops"), none⟩⟩
      ⟨some (.str "oops"), none⟩ (.str "oops") 0 0 [] noVtThemes rfl rfl rfl rfl

/-- Counterexample for C6 as stated: at the failing input — an appearance
block carrying a textures table but no `vertices-texture` field — the call
returns a per-theme default record (and a warning), which is not the claimed
`undefined` (`Except.ok none`) for the whole call. -/
theorem texture_missing_uv_table_counterexample :
    getTextureData noVtDoc 0 0 [] (some noVtThemes) =
      .ok (some ([("default", defaultRec)], ["Texture values is not an array"])) ∧
    (Except.ok (some ([("default", defaultRec)], ["Texture values is not an array"])) :
      Except String (Option (List (String × TexRecord) × List String))) ≠ .ok none := by
  exact ⟨rfl, by simp⟩

/-- C7 (amended): `getTextureData` never raises — every call returns a value —
and every malformed-data path degrades to a fallback record; the fallback
paths log a diagnostic except the missing (or falsy) UV-table-entry path,
whose warn is commented out in the source: at the concrete out-of-range
UV-index input the record degrades silently (empty warning list), while the
out-of-range surface index input logs its diagnostic. -/
theorem texture_never_throws :
    (∀ (json : CityJson) (si : ℕ) (vi : ℤ) (holes : List ℤ)
      (tex : Option (List (String × ThemeEntry))),
      ∃ v, getTextureData json si vi holes tex = .ok v) ∧
    getTextureData smallDoc 0 0 [] (some smallThemes) =
      .ok (some ([("t", ⟨.num (.fin 0), zeroUv⟩)], [])) ∧
    getTextureData smallDoc 99 0 [] (some smallThemes) =
      .ok (some ([("t", defaultRec)], ["Missing texture values for surface"])) :=
  ⟨getTextureData_ok, rfl, rfl⟩

/-- Counterexample for C7 as stated: the missing-UV-table-entry path (UV index
99 against the one-entry UV table) is a malformed-data path that returns the
fallback record, but its warning list is empty — no diagnostic is logged on
this path (the source comments the warn out), refuting "every fallback path
logs a diagnostic". -/
theorem texture_silent_fallback_counterexample :
    getTextureData smallDoc 0 0 [] (some smallThemes) =
      .ok (some ([("t", ⟨.num (.fin 0), zeroUv⟩)], [])) ∧
    (⟨.num (.fin 0), zeroUv⟩ : TexRecord) ≠ defaultRec ∧
    (["Invalid UV coordinates"] : List String) ≠ [] := by
  refine ⟨rfl, fun h => ?_, by simp⟩
  norm_num [defaultRec, TexRecord.mk.injEq] at h

/-- C5: when the lookup succeeds down to a numeric UV-table index but that
index is out of range of the vertices-texture table (the entry is missing),
`getTextureData` returns `{ index: t, uvs: [0, 0] }` for that theme — the
original texture index taken from ring 0 — and does not throw. -/
theorem texture_oob_uv_entry {json : CityJson} {surfaceIndex : ℕ} {vertexIndex : ℤ}
    {holes : List ℤ} {themes : List (String × ThemeEntry)} {tvs : List JVal}
    {th : String} {e : ThemeEntry} {vals ds ring0 ring : List JVal} {t k : ℚ} {kn : ℕ}
    (htv : textureVerticesOf json = .arr tvs)
    (hmem : (th, e) ∈ themes)
    (h1 : e.values = some (.arr vals))
    (hpos : 0 < tvs.length)
    (hsiLt : surfaceIndex < vals.length)
    (hsi : vals.getD surfaceIndex .undefined = .arr ds)
    (h3 : ds.getD 0 .undefined = .arr ring0)
    (h4 : ring0.getD 0 .undefined = .num (.fin t))
    (h6 : ds.getD (ringIdOf holes vertexIndex) .undefined = .arr ring)
    (h7a : 0 ≤ vIdOf holes vertexIndex + 1)
    (h7b : ring.getD (vIdOf holes vertexIndex + 1).toNat .undefined = .num (.fin k))
    (h8 : qToIdx k = some kn)
    (hout : tvs.length ≤ kn) :
    ∃ recs warns, getTextureData json surfaceIndex vertexIndex holes (some themes) =
      .ok (some (recs, warns)) ∧
      (th, (⟨.num (.fin t), zeroUv⟩ : TexRecord)) ∈ recs := by
  have huv : jsAccess (.arr ring) (vIdOf holes vertexIndex + 1) = .ok (.num (.fin k)) := by
    have h0 : jsAccess (.arr ring) (vIdOf holes vertexIndex + 1) =
        .ok (if 0 ≤ vIdOf holes vertexIndex + 1 then
          ring.getD (vIdOf holes vertexIndex + 1).toNat .undefined else .undefined) := rfl
    rw [h0, if_pos h7a, h7b]
  have hundef : jsIndexBy tvs (.num (.fin k)) = .undefined := by
    have h0 : jsIndexBy tvs (.num (.fin k)) = (match qToIdx k with
        | some i => tvs.getD i .undefined
        | none => .undefined) := rfl
    rw [h0, h8]
    exact List.getD_eq_default _ _ hout
  have hbad : (!(jsIndexBy tvs (.num (.fin k))).truthy || !(jsIndexBy tvs (.num (.fin k))).isArr
      || hasBadCoord (jsIndexBy tvs (.num (.fin k)))) = true := by
    rw [hundef]
    rfl
  have heval : getTextureDataTheme json surfaceIndex vertexIndex holes tvs th e =
      .ok ((th, ⟨.num (.fin t), zeroUv⟩),
        if (jsIndexBy tvs (.num (.fin k))).truthy then ["Invalid UV coordinates"] else []) :=
    theme_eval_badUv h1 hpos hsiLt hsi h3 h4 h6 huv (isUndef_num _) hbad
  rw [hundef] at heval
  simp only [JVal.truthy, Bool.false_eq_true, if_false] at heval
  exact getTextureData_mem htv hmem heval

/-- Witness for C5: UV-table index 99 against the one-entry UV table resolves
to the record keeping ring-0 texture index 0 with zero UVs, without error. -/
theorem texture_oob_uv_entry_witness :
    ∃ recs warns, getTextureData smallDoc 0 0 [] (some smallThemes) =
      .ok (some (recs, warns)) ∧
      ("t", (⟨.num (.fin 0), zeroUv⟩ : TexRecord)) ∈ recs := by
  have hmem : ("t", (⟨some (.arr [.arr [.arr [.num (.fin 0), .num (.fin 99)]]])⟩ : ThemeEntry))
      ∈ smallThemes := by simp [smallThemes]
  have htv : textureVerticesOf smallDoc = .arr [.arr [.num (.fin 0), .num (.fin 0)]] := rfl
  have h1 : (⟨some (.arr [.arr [.arr [.num (.fin 0), .num (.fin 99)]]])⟩ : ThemeEntry).values =
      some (.arr [.arr [.arr [.num (.fin 0), .num (.fin 99)]]]) := rfl
  have hsi : ([.arr [.arr [.num (.fin 0), .num (.fin 99)]]] : List JVal).getD 0 .undefined =
      .arr [.arr [.num (.fin 0), .num (.fin 99)]] := rfl
  have h3 : ([.arr [.num (.fin 0), .num (.fin 99)]] : List JVal).getD 0 .undefined =
      .arr [.num (.fin 0), .num (.fin 99)] := rfl
  have h4 : ([.num (.fin 0), .num (.fin 99)] : List JVal).getD 0 .undefined = .num (.fin 0) := rfl
  have h6 : ([.arr [.num (.fin 0), .num (.fin 99)]] : List JVal).getD (ringIdOf [] 0) .undefined =
      .arr [.num (.fin 0), .num (.fin 99)] := rfl
  have h7a : (0 : ℤ) ≤ vIdOf [] 0 + 1 := by decide
  have h7b : ([.num (.fin 0), .num (.fin 99)] : List JVal).getD (vIdOf [] 0 + 1).toNat .undefined =
      .num (.fin 99) := rfl
  have h8 : qToIdx 99 = some 99 := rfl
  have hout : ([.arr [.num (.fin 0), .num (.fin 0)]] : List JVal).length ≤ 99 := by decide
  exact texture_oob_uv_entry htv hmem h1 (by decide) (by decide) hsi h3 h4 h6 h7a h7b h8 hout

end CityJsonLoader
